import Mathlib

/-!
Verification of the document-extraction pipeline of
`src/telegram_file_processor.py` (telegram-file-processor).

The Python source is shallowly embedded below.  Library behaviour
(pandas, openpyxl, pdfplumber, PyPDF2, network downloads) is modelled by
passing the outcome a library call would produce as an explicit argument
(`LibAttempt`): the embedded functions reproduce exactly what the Python
code computes from those outcomes.  Python dicts with string keys are
modelled as insertion-ordered association lists (`dictInsert` replaces
the value of an existing key in place, otherwise appends), matching the
semantics the code relies on via `dict` / `.keys()`.
-/

/-- Outcome of a call into an external parsing library: either the value
the library returned, or the message of the exception it raised. -/
inductive LibAttempt (α : Type) where
  | ok (val : α)
  | raises (msg : String)
deriving DecidableEq

/-- Python `dict` assignment `d[k] = v` for string-keyed dicts that are
read back in insertion order: replace in place when the key is present,
append otherwise. -/
def dictInsert {α : Type} (d : List (String × α)) (k : String) (v : α) :
    List (String × α) :=
  if d.any (fun p => p.1 == k) then
    d.map (fun p => if p.1 == k then (k, v) else p)
  else
    d ++ [(k, v)]

/-- Scalar cell values produced by openpyxl / pandas, as far as the
claims need them: `none` is Python `None`, `str`, `int`, and naive
`datetime` values. -/
inductive PyValue where
  | none
  | str (s : String)
  | int (n : Int)
  | datetime (y mo d h mi sec : Nat)
deriving DecidableEq

/-- Zero-padding to two digits, as Python `%02d`. -/
def pad2 (n : Nat) : String := if n < 10 then "0" ++ toString n else toString n

/-- Zero-padding to four digits, as Python `%04d`. -/
def pad4 (n : Nat) : String :=
  if n < 10 then "000" ++ toString n
  else if n < 100 then "00" ++ toString n
  else if n < 1000 then "0" ++ toString n
  else toString n

/-- Python `str(v)` on the modelled scalar values.  Note that
`str(datetime(...))` uses a space between date and time, not the `T` of
`datetime.isoformat()`. -/
def pyStr : PyValue → String
  | PyValue.none => "None"
  | PyValue.str s => s
  | PyValue.int n => toString n
  | PyValue.datetime y mo d h mi sec =>
      pad4 y ++ "-" ++ pad2 mo ++ "-" ++ pad2 d ++ " " ++
        pad2 h ++ ":" ++ pad2 mi ++ ":" ++ pad2 sec

/-- Python `datetime.isoformat()` (microsecond-free case): the ISO-8601
form with the `T` separator.  This definition follows the wording of the
specification, for comparison with what the code computes. -/
def pyIsoformat : PyValue → String
  | PyValue.datetime y mo d h mi sec =>
      pad4 y ++ "-" ++ pad2 mo ++ "-" ++ pad2 d ++ "T" ++
        pad2 h ++ ":" ++ pad2 mi ++ ":" ++ pad2 sec
  | v => pyStr v

/-- Python truthiness test `cell is not None`. -/
def isNotNone : PyValue → Bool
  | PyValue.none => false
  | _ => true

/-- Recognizer for string-typed values (used to state that record values
are strings). -/
def isStr : PyValue → Bool
  | PyValue.str _ => true
  | _ => false

/-- `str(cell) if cell is not None else ""` (line 105 of the source). -/
def cellToStr (c : PyValue) : String :=
  if isNotNone c then pyStr c else ""

/-- Header synthesis of the openpyxl fallback, line 96:
`str(cell) if cell is not None else f"Col_" + str(i)` with `i` the
0-based `enumerate` index. -/
def sheetHeadersAux : Nat → List PyValue → List String
  | _, [] => []
  | i, c :: cs =>
      (if isNotNone c then pyStr c else "Col_" ++ toString i) ::
        sheetHeadersAux (i + 1) cs

/-- Headers of one sheet, from its first row (0-based `enumerate`). -/
def sheetHeaders (firstRow : List PyValue) : List String :=
  sheetHeadersAux 0 firstRow

/-- One record of the openpyxl fallback. -/
abbrev ExcelRec := List (String × PyValue)

/-- The row loop of lines 103-105: `for i, cell in enumerate(row): if i <
len(sheet_headers): row_dict[sheet_headers[i]] = str(cell) if cell is not
None else ""`. -/
def excelRowAux (hs : List String) : Nat → List PyValue → ExcelRec → ExcelRec
  | _, [], d => d
  | i, c :: cs, d =>
      excelRowAux hs (i + 1) cs
        (if i < hs.length then
          dictInsert d (hs.getD i "") (PyValue.str (cellToStr c))
        else d)

/-- Record built from one data row (the dict starts empty). -/
def excelRow (hs : List String) (row : List PyValue) : ExcelRec :=
  excelRowAux hs 0 row []

/-- Lines 100-106: keep the rows having some non-`None` cell, convert
each to a record. -/
def sheetRecords (hs : List String) (dataRows : List (List PyValue)) :
    List ExcelRec :=
  (dataRows.filter (fun row => row.any isNotNone)).map (excelRow hs)

/-- The per-sheet loop of the openpyxl fallback (lines 88-110).  A sheet
is its list of rows; a sheet with no rows makes `next(...)` raise
`StopIteration`, which the outer handler turns into an error result.
`allHeaders` keeps the headers of the first sheet whose header list is
nonempty (`if not all_headers`). -/
def openpyxlLoop :
    List (List (List PyValue)) → List ExcelRec → List String →
      Except String (List ExcelRec × List String)
  | [], allData, allHeaders => Except.ok (allData, allHeaders)
  | s :: rest, allData, allHeaders =>
      match s with
      | [] => Except.error "StopIteration"
      | firstRow :: dataRows =>
          let hs := if firstRow.isEmpty then [] else sheetHeaders firstRow
          openpyxlLoop rest (allData ++ sheetRecords hs dataRows)
            (if allHeaders.isEmpty then hs else allHeaders)

/-- The success payload of `process_excel`. -/
structure ExcelSuccess where
  data : List ExcelRec
  headers : List String
  record_count : Nat
  sheets_processed : Nat
deriving DecidableEq

/-- Result of `process_excel`: the success dict or the error dict
(`success: False`). -/
inductive ExcelResult where
  | ok (r : ExcelSuccess)
  | err (msg : String)
deriving DecidableEq

/-- `FileProcessor.process_excel` (lines 64-126).  The pandas attempt is
given as a `LibAttempt`: on success the code returns
`df.to_dict('records')` and `df.columns.tolist()` unchanged (native cell
types preserved); on failure the openpyxl fallback runs on the
workbook's sheets. -/
def process_excel (pandas : LibAttempt (List String × List ExcelRec))
    (sheets : List (List (List PyValue))) : ExcelResult :=
  match pandas with
  | LibAttempt.ok (headers, data) =>
      ExcelResult.ok
        { data := data, headers := headers, record_count := data.length,
          sheets_processed := 1 }
  | LibAttempt.raises _ =>
      match openpyxlLoop sheets [] [] with
      | Except.ok (allData, allHeaders) =>
          ExcelResult.ok
            { data := allData, headers := allHeaders,
              record_count := allData.length,
              sheets_processed := sheets.length }
      | Except.error m =>
          ExcelResult.err ("Errore processing Excel: " ++ m)

/-- A cell of a pdfplumber table: a string or Python `None`. -/
abbrev Cell := Option String

/-- Python truthiness `if cell:` on a pdfplumber cell: `None` and the
empty string are falsy. -/
def truthy : Cell → Bool
  | Option.none => false
  | some s => s ≠ ""

/-- One page as pdfplumber reports it: the result of
`page.extract_text()` and of `page.extract_tables()`. -/
structure Page where
  text : Option String
  tables : List (List (List Cell))
deriving DecidableEq

/-- Header synthesis of line 150: `str(cell) if cell else f"Col_" +
str(i)` over `enumerate(table[0])` (0-based `i`; falsy cells, that is
`None` or the empty string, are replaced). -/
def pdfHeadersAux : Nat → List Cell → List String
  | _, [] => []
  | i, c :: cs =>
      (if truthy c then c.getD "" else "Col_" ++ toString i) ::
        pdfHeadersAux (i + 1) cs

/-- Headers of one accepted pdfplumber table. -/
def pdfHeadersList (row0 : List Cell) : List String :=
  pdfHeadersAux 0 row0

/-- One record of the PDF structured path. -/
abbrev PdfRec := List (String × String)

/-- The row loop of lines 155-157: `for i, cell in enumerate(row): if i <
len(headers): row_dict[headers[i]] = str(cell) if cell else ""`. -/
def buildRowAux (hs : List String) : Nat → List Cell → PdfRec → PdfRec
  | _, [], d => d
  | i, c :: cs, d =>
      buildRowAux hs (i + 1) cs
        (if i < hs.length then
          dictInsert d (hs.getD i "") (if truthy c then c.getD "" else "")
        else d)

/-- Record built from one pdfplumber table row. -/
def buildRow (hs : List String) (row : List Cell) : PdfRec :=
  buildRowAux hs 0 row []

/-- Lines 148-158: a table is accepted only when it has a header row and
at least one data row (`if table and len(table) > 1`); data rows with
some truthy cell become records. -/
def tableRecords (table : List (List Cell)) : List PdfRec :=
  match table with
  | [] => []
  | row0 :: rest =>
      if rest.isEmpty then []
      else (rest.filter (fun row => row.any truthy)).map
        (buildRow (pdfHeadersList row0))

/-- `extracted_data` after the page loop: records of all accepted
tables, in (page, table-index, row) order. -/
def extractedData (pages : List Page) : List PdfRec :=
  (pages.map (fun p => (p.tables.map tableRecords).flatten)).flatten

/-- `tables_found` after the page loop: number of accepted tables. -/
def tablesFound (pages : List Page) : Nat :=
  pages.foldl
    (fun n p => n + p.tables.countP (fun t => decide (1 < t.length))) 0

/-- The text-accumulation of lines 140-144: for each page (0-based
`page_num`), if `page.extract_text()` is truthy, append
`"\n--- Pagina " + str(page_num + 1) + " ---\n" + page_text`. -/
def allTextAux : Nat → String → List Page → String
  | _, acc, [] => acc
  | i, acc, p :: ps =>
      allTextAux (i + 1)
        (match p.text with
         | some t =>
             if t = "" then acc
             else acc ++ "\n--- Pagina " ++ toString (i + 1) ++ " ---\n" ++ t
         | Option.none => acc) ps

/-- `all_text` accumulated over the whole document. -/
def allText (pages : List Page) : String :=
  allTextAux 0 "" pages

/-- The per-page marker blocks, one string per page with truthy text, in
page order, numbered from 1.  This definition follows the wording of the
specification sentence about page markers, for comparison with the
loop-accumulated `allText`. -/
def markedTexts : Nat → List Page → List String
  | _, [] => []
  | n, p :: ps =>
      match p.text with
      | some t =>
          if t = "" then markedTexts (n + 1) ps
          else ("\n--- Pagina " ++ toString n ++ " ---\n" ++ t) ::
            markedTexts (n + 1) ps
      | Option.none => markedTexts (n + 1) ps

/-- Concatenation of a list of strings. -/
def concatList : List String → String
  | [] => ""
  | s :: ss => s ++ concatList ss

/-- The success payload of `process_pdf`. -/
structure PdfSuccess where
  data : List PdfRec
  headers : List String
  record_count : Nat
  tables_found : Nat
  full_text : String
deriving DecidableEq

/-- Result of `process_pdf`: the success dict or the error dict
(`success: False`). -/
inductive PdfResult where
  | ok (r : PdfSuccess)
  | err (msg : String)
deriving DecidableEq

/-- Lines 161-179: the return value of the pdfplumber branch.  With
records, headers are `list(extracted_data[0].keys())` and `full_text` is
the first 5000 characters of `all_text`; with no records, a single
`content`/`source` record is returned and `tables_found` is the literal
`0`. -/
def pdfplumberResult (pages : List Page) : PdfSuccess :=
  match extractedData pages with
  | [] =>
      { data := [[("content", allText pages), ("source", "pdf_text")]],
        headers := ["content", "source"], record_count := 1,
        tables_found := 0, full_text := (allText pages).take 5000 }
  | first :: rest =>
      { data := first :: rest, headers := first.map Prod.fst,
        record_count := (first :: rest).length,
        tables_found := tablesFound pages,
        full_text := (allText pages).take 5000 }

/-- Lines 185-189 of the PyPDF2 fallback: `text_content +=
page.extract_text() + "\n"` over the reader's pages. -/
def pypdf2Text (pageTexts : List String) : String :=
  pageTexts.foldl (fun acc t => acc ++ t ++ "\n") ""

/-- Lines 191-198: the return value of the PyPDF2 fallback. -/
def pypdf2Result (pageTexts : List String) : PdfSuccess :=
  { data := [[("content", pypdf2Text pageTexts), ("source", "pdf_text")]],
    headers := ["content", "source"], record_count := 1,
    tables_found := 0, full_text := (pypdf2Text pageTexts).take 5000 }

/-- `FileProcessor.process_pdf` (lines 128-206).  The pdfplumber attempt
and the PyPDF2 attempt are given as `LibAttempt`s; a PyPDF2 exception
reaches the outer handler, which returns the `success: False` error
dict. -/
def process_pdf (plumber : LibAttempt (List Page))
    (pypdf2 : LibAttempt (List String)) : PdfResult :=
  match plumber with
  | LibAttempt.ok pages => PdfResult.ok (pdfplumberResult pages)
  | LibAttempt.raises _ =>
      match pypdf2 with
      | LibAttempt.ok pageTexts => PdfResult.ok (pypdf2Result pageTexts)
      | LibAttempt.raises m =>
          PdfResult.err ("Errore processing PDF: " ++ m)

/-- The configured size ceiling, line 29: `50 * 1024 * 1024`. -/
def MAX_FILE_SIZE : Nat := 50 * 1024 * 1024

/-- `FileProcessor.download_telegram_file`, lines 50-58: the size
reported by the Telegram `getFile` call is checked against the ceiling
before the download request; on success the downloaded bytes are
returned. -/
def download_telegram_file (file_size : Nat) (content : List Nat) :
    Except String (List Nat) :=
  if file_size > MAX_FILE_SIZE then
    Except.error ("File troppo grande: " ++ toString file_size ++
      " bytes (max " ++ toString MAX_FILE_SIZE ++ ")")
  else Except.ok content

/-- What the `/process-file` endpoint does with a request:
`parseExcel n` / `parsePdf n` mean that the corresponding parsing
routine is invoked on the downloaded content of byte length `n`. -/
inductive DirectOutcome where
  | badRequest
  | parseExcel (contentSize : Nat)
  | parsePdf (contentSize : Nat)
  | unsupported
deriving DecidableEq

/-- `process_file_direct` (lines 303-327): after the presence check on
`file_url` and `file_type` (Python falsiness: absent or empty string),
the content is downloaded and handed to the parser selected by
`file_type`.  No size comparison appears anywhere on this path. -/
def process_file_direct (file_url : Option String)
    (file_type : Option String) (contentSize : Nat) : DirectOutcome :=
  match file_url, file_type with
  | some u, some t =>
      if u = "" ∨ t = "" then DirectOutcome.badRequest
      else if t = "xlsx" ∨ t = "xls" then DirectOutcome.parseExcel contentSize
      else if t = "pdf" then DirectOutcome.parsePdf contentSize
      else DirectOutcome.unsupported
  | _, _ => DirectOutcome.badRequest

/-- The metadata dict attached by `webhook_handler` (lines 265-273). -/
structure Metadata where
  original_filename : String
  file_size : Nat
  mime_type : String
  processed_at : String
  user_id : Option Int
  username : Option String
  chat_id : Option Int
deriving DecidableEq

/-- The processing result forwarded by the webhook handler. -/
inductive ProcOutcome where
  | excel (r : ExcelResult)
  | pdf (r : PdfResult)
deriving DecidableEq

/-- The result-plus-metadata object the webhook handler forwards. -/
structure WebhookResult where
  proc : ProcOutcome
  meta : Metadata
deriving DecidableEq

/-- The processing part of `webhook_handler` (lines 256-273): route by
extension, then attach metadata; `now` is the `datetime.now()`
timestamp read when the metadata is built. -/
def webhookProcess (ext : String)
    (pandas : LibAttempt (List String × List ExcelRec))
    (sheets : List (List (List PyValue)))
    (plumber : LibAttempt (List Page)) (pypdf2 : LibAttempt (List String))
    (filename mime : String) (fsize : Nat) (uid : Option Int)
    (uname : Option String) (chat : Option Int) (now : String) :
    WebhookResult :=
  { proc :=
      if ext = "pdf" then ProcOutcome.pdf (process_pdf plumber pypdf2)
      else ProcOutcome.excel (process_excel pandas sheets),
    meta :=
      { original_filename := filename, file_size := fsize,
        mime_type := mime, processed_at := now, user_id := uid,
        username := uname, chat_id := chat } }

/-- Blank out the timestamp field, to compare envelopes up to
`processed_at`. -/
def eraseTimestamp (m : Metadata) : Metadata :=
  { m with processed_at := "" }

/-- Concrete one-page PDF whose text is three comma-separated lines and
which contains no pdfplumber tables. -/
def csvTextPages : List Page :=
  [{ text := some "A,B,C\n1,2,3\n4,5,6", tables := [] }]

/-- Concrete one-page PDF with two accepted tables: the first has a
two-cell header row and a one-cell data row, the second a different
one-cell header row. -/
def twoTablePages : List Page :=
  [{ text := Option.none,
     tables := [[[some "A", some "B"], [some "1"]],
                [[some "X"], [some "x"]]] }]

/-- Concrete one-page PDF with truthy text. -/
def onePage : List Page :=
  [{ text := some "x", tables := [] }]

/-- Concrete one-page PDF with one accepted table whose only data row is
truthy solely in a cell beyond the header count. -/
def raggedRowPages : List Page :=
  [{ text := Option.none,
     tables := [[[some "A"], [some "", some "x"]]] }]

/-- Inserting a fresh key appends it. -/
lemma dictInsert_of_not_mem {α : Type} (d : List (String × α)) (k : String)
    (v : α) (h : k ∉ d.map Prod.fst) : dictInsert d k v = d ++ [(k, v)] := by
  have hany : d.any (fun p => p.1 == k) = false := by
    rw [List.any_eq_false]
    intro p hp hbeq
    exact h ((beq_iff_eq.mp hbeq) ▸ List.mem_map_of_mem Prod.fst hp)
  simp [dictInsert, hany]

/-- Every entry of `dictInsert d k v` is an entry of `d` or the inserted
pair. -/
lemma mem_dictInsert {α : Type} {d : List (String × α)} {k : String}
    {v : α} {kv : String × α} (h : kv ∈ dictInsert d k v) :
    kv ∈ d ∨ kv = (k, v) := by
  unfold dictInsert at h
  by_cases hc : d.any (fun p => p.1 == k) = true
  · rw [if_pos hc] at h
    obtain ⟨p, hp, he⟩ := List.mem_map.mp h
    by_cases hk : p.1 == k
    · right; rw [if_pos hk] at he; exact he.symm
    · left; rw [if_neg hk] at he; exact he ▸ hp
  · rw [if_neg hc] at h
    rcases List.mem_append.mp h with h1 | h2
    · exact Or.inl h1
    · right; simpa using h2

/-- In a duplicate-free list, the element at position `i` does not occur
before position `i`. -/
lemma get_not_mem_take :
    ∀ (hs : List String), hs.Nodup → ∀ (i : Nat) (h : i < hs.length),
      hs[i] ∉ hs.take i
  | [], _, i, h => by simp at h
  | a :: t, _, 0, h => by simp
  | a :: t, nd, i + 1, h => by
      have hnd := List.nodup_cons.mp nd
      intro hmem
      rw [List.take_succ_cons] at hmem
      simp only [List.getElem_cons_succ] at hmem
      rcases List.mem_cons.mp hmem with he | hmem2
      · have hlt : i < t.length := by simpa using h
        exact hnd.1 (he ▸ List.getElem_mem hlt)
      · exact get_not_mem_take t hnd.2 i (by simpa using h) hmem2

/-- Key-tracking invariant of the row loop: starting from a dict whose
keys are the first `i` headers, processing the remaining cells yields a
dict whose keys are the first `min (i + |row|) |hs|` headers. -/
lemma excelRowAux_keys (hs : List String) (nd : hs.Nodup) :
    ∀ (row : List PyValue) (i : Nat) (d : ExcelRec),
      d.map Prod.fst = hs.take i →
      (excelRowAux hs i row d).map Prod.fst =
        hs.take (min (i + row.length) hs.length)
  | [], i, d, hd => by
      rw [excelRowAux, hd, List.take_eq_take]
      simp only [List.length_nil]
      omega
  | c :: cs, i, d, hd => by
      rw [excelRowAux]
      by_cases hi : i < hs.length
      · rw [if_pos hi]
        have hkey : hs.getD i "" = hs[i] := List.getD_eq_getElem hs "" hi
        have hnot : hs[i] ∉ d.map Prod.fst := by
          rw [hd]; exact get_not_mem_take hs nd i hi
        have hdi :
            (dictInsert d (hs.getD i "") (PyValue.str (cellToStr c))).map
                Prod.fst = hs.take (i + 1) := by
          rw [hkey, dictInsert_of_not_mem d _ _ hnot, List.map_append, hd,
            List.take_succ]
          simp [List.getElem?_eq_getElem hi]
        rw [excelRowAux_keys hs nd cs (i + 1) _ hdi, List.take_eq_take]
        simp only [List.length_cons]
        omega
      · rw [if_neg hi]
        have hd2 : d.map Prod.fst = hs.take (i + 1) := by
          rw [hd, List.take_eq_take]; omega
        rw [excelRowAux_keys hs nd cs (i + 1) d hd2, List.take_eq_take]
        simp only [List.length_cons]
        omega

/-- Keys of a record built from a data row: the first
`min (|row|) (|hs|)` headers — short rows leave the trailing headers
out, they are not padded. -/
lemma excelRow_keys (hs : List String) (nd : hs.Nodup)
    (row : List PyValue) :
    (excelRow hs row).map Prod.fst =
      hs.take (min row.length hs.length) := by
  have := excelRowAux_keys hs nd row 0 [] (by simp)
  simpa using this

/-- Every value the row loop stores is a string value. -/
lemma excelRowAux_values (hs : List String) :
    ∀ (row : List PyValue) (i : Nat) (d : ExcelRec),
      (∀ kv ∈ d, ∃ s, kv.2 = PyValue.str s) →
      ∀ kv ∈ excelRowAux hs i row d, ∃ s, kv.2 = PyValue.str s
  | [], i, d, hd => by simpa [excelRowAux] using hd
  | c :: cs, i, d, hd => by
      rw [excelRowAux]
      apply excelRowAux_values hs cs (i + 1)
      intro kv hkv
      by_cases hi : i < hs.length
      · rw [if_pos hi] at hkv
        rcases mem_dictInsert hkv with h1 | h2
        · exact hd kv h1
        · exact ⟨cellToStr c, by rw [h2]⟩
      · rw [if_neg hi] at hkv
        exact hd kv hkv

/-- Every value of a record built by the openpyxl row loop is a string
value. -/
lemma excelRow_values (hs : List String) (row : List PyValue) :
    ∀ kv ∈ excelRow hs row, ∃ s, kv.2 = PyValue.str s :=
  excelRowAux_values hs row 0 [] (by simp)

/-- Records surviving the sheet loop: each is an accumulator record or
built by `excelRow` from a row with some non-`None` cell. -/
lemma openpyxlLoop_mem {P : ExcelRec → Prop}
    (hP : ∀ hs row, row.any isNotNone = true → P (excelRow hs row)) :
    ∀ (sheets : List (List (List PyValue))) (acc : List ExcelRec)
      (hdrs : List String) (out : List ExcelRec × List String),
      openpyxlLoop sheets acc hdrs = Except.ok out →
      (∀ rec ∈ acc, P rec) → ∀ rec ∈ out.1, P rec
  | [], acc, hdrs, out, heq, hacc => by
      rw [openpyxlLoop] at heq
      cases heq
      exact hacc
  | s :: rest, acc, hdrs, out, heq, hacc => by
      cases s with
      | nil =>
          rw [openpyxlLoop] at heq
          exact absurd heq (by simp)
      | cons firstRow dataRows =>
          rw [openpyxlLoop] at heq
          refine openpyxlLoop_mem hP rest _ _ out heq ?_
          intro rec hrec
          rcases List.mem_append.mp hrec with h1 | h2
          · exact hacc rec h1
          · rw [sheetRecords] at h2
            obtain ⟨row, hrow, he⟩ := List.mem_map.mp h2
            have hmem := List.mem_filter.mp hrow
            exact he ▸ hP _ row hmem.2

/-- Records in the data of a successful openpyxl-path extraction all
come from `excelRow` applied to a row with some non-`None` cell. -/
lemma process_excel_openpyxl_mem {msg : String}
    {sheets : List (List (List PyValue))} {r : ExcelSuccess}
    (heq : process_excel (LibAttempt.raises msg) sheets = ExcelResult.ok r)
    {P : ExcelRec → Prop}
    (hP : ∀ hs row, row.any isNotNone = true → P (excelRow hs row)) :
    ∀ rec ∈ r.data, P rec := by
  cases hL : openpyxlLoop sheets [] [] with
  | ok out =>
      have hdata : r.data = out.1 := by
        rw [process_excel, hL] at heq
        cases heq
        rfl
      rw [hdata]
      exact openpyxlLoop_mem hP sheets [] [] out hL (by simp)
  | error m =>
      rw [process_excel, hL] at heq
      exact absurd heq (by simp)

/-- Every record of `extracted_data` on the PDF structured path is built
by the row loop from a table row with some truthy cell. -/
lemma extractedData_mem {pages : List Page} {rec : PdfRec}
    (h : rec ∈ extractedData pages) :
    ∃ hs row, row.any truthy = true ∧ rec = buildRow hs row := by
  unfold extractedData at h
  obtain ⟨l1, hl1, h1⟩ := List.mem_flatten.mp h
  obtain ⟨p, hp, he1⟩ := List.mem_map.mp hl1
  subst he1
  obtain ⟨l2, hl2, h2⟩ := List.mem_flatten.mp h1
  obtain ⟨t, ht, he2⟩ := List.mem_map.mp hl2
  subst he2
  cases t with
  | nil => simp [tableRecords] at h2
  | cons row0 rest =>
      rw [tableRecords] at h2
      by_cases hr : rest.isEmpty
      · rw [if_pos hr] at h2
        simp at h2
      · rw [if_neg hr] at h2
        obtain ⟨row, hrow, he⟩ := List.mem_map.mp h2
        have hmem := List.mem_filter.mp hrow
        exact ⟨pdfHeadersList row0, row, hmem.2, he.symm⟩

/-- A synthesized column name is never the empty string. -/
lemma colName_ne_empty (i : Nat) : ("Col_" ++ toString i) ≠ "" := by
  intro h
  have h2 := congrArg String.length h
  rw [String.length_append] at h2
  have e1 : "Col_".length = 4 := rfl
  have e2 : "".length = 0 := rfl
  rw [e1, e2] at h2
  omega

/-- The text loop accumulates exactly the concatenation of the per-page
marker blocks, in page order. -/
lemma allTextAux_concat : ∀ (ps : List Page) (i : Nat) (acc : String),
    allTextAux i acc ps = acc ++ concatList (markedTexts (i + 1) ps)
  | [], i, acc => by
      rw [allTextAux, markedTexts, concatList]
      simp
  | p :: ps, i, acc => by
      rw [allTextAux, markedTexts]
      cases htext : p.text with
      | none =>
          simp only
          rw [allTextAux_concat ps (i + 1) acc]
      | some t =>
          simp only
          by_cases ht : t = ""
          · rw [if_pos ht, if_pos ht, allTextAux_concat ps (i + 1) acc]
          · rw [if_neg ht, if_neg ht, allTextAux_concat ps (i + 1) _, concatList]
            simp [String.append_assoc]

/-- Position-wise description of the pdfplumber header synthesis. -/
lemma pdfHeadersAux_getD :
    ∀ (cs : List Cell) (i j : Nat) (h : j < cs.length),
      (pdfHeadersAux i cs).getD j "" =
        if truthy cs[j] then (cs[j]).getD "" else "Col_" ++ toString (i + j)
  | [], i, j, h => by simp at h
  | c :: cs, i, 0, h => by
      rw [pdfHeadersAux]
      simp
  | c :: cs, i, j + 1, h => by
      rw [pdfHeadersAux]
      simp only [List.getD_cons_succ, List.getElem_cons_succ]
      rw [pdfHeadersAux_getD cs (i + 1) j (by simpa using h)]
      have e : (i + 1) + j = i + (j + 1) := by omega
      rw [e]

/-- Every pdfplumber header is a nonempty string: truthy cells keep
their (nonempty) text, falsy cells get a synthesized column name. -/
lemma pdfHeadersAux_ne_empty :
    ∀ (cs : List Cell) (i : Nat) (h : String), h ∈ pdfHeadersAux i cs → h ≠ ""
  | [], i, h => by simp [pdfHeadersAux]
  | c :: cs, i, h => by
      rw [pdfHeadersAux]
      intro hmem
      rcases List.mem_cons.mp hmem with he | hmem2
      · subst he
        by_cases hc : truthy c = true
        · rw [if_pos hc]
          cases c with
          | none => simp [truthy] at hc
          | some s =>
              have hne : s ≠ "" := by simpa [truthy] using hc
              simpa using hne
        · rw [if_neg hc]
          exact colName_ne_empty i
      · exact pdfHeadersAux_ne_empty cs (i + 1) h hmem2

/-- Position-wise description of the openpyxl header synthesis. -/
lemma sheetHeadersAux_getD :
    ∀ (cs : List PyValue) (i j : Nat) (h : j < cs.length),
      (sheetHeadersAux i cs).getD j "" =
        if isNotNone cs[j] then pyStr cs[j] else "Col_" ++ toString (i + j)
  | [], i, j, h => by simp at h
  | c :: cs, i, 0, h => by
      rw [sheetHeadersAux]
      simp
  | c :: cs, i, j + 1, h => by
      rw [sheetHeadersAux]
      simp only [List.getD_cons_succ, List.getElem_cons_succ]
      rw [sheetHeadersAux_getD cs (i + 1) j (by simpa using h)]
      have e : (i + 1) + j = i + (j + 1) := by omega
      rw [e]

/-- `process_excel` on the openpyxl path with a single sheet. -/
lemma process_excel_one_sheet (hr : List PyValue)
    (rows : List (List PyValue)) (msg : String) :
    process_excel (LibAttempt.raises msg) [hr :: rows] =
      ExcelResult.ok
        { data := sheetRecords (sheetHeaders hr) rows,
          headers := sheetHeaders hr,
          record_count := (sheetRecords (sheetHeaders hr) rows).length,
          sheets_processed := 1 } := by
  cases hr with
  | nil => simp [process_excel, openpyxlLoop, sheetHeaders, sheetHeadersAux]
  | cons a t => simp [process_excel, openpyxlLoop]

/-- Claim C1 counterexample.  On a PDF whose structured extraction
succeeds with zero tables and whose text is the three CSV-like lines
`A,B,C` / `1,2,3` / `4,5,6`, the code returns headers
`["content", "source"]` (not `["A", "B", "C"]`), a single
content/source record (not 2 records), and `tables_found = 0`: no
heuristic table reconstruction takes place. -/
theorem c1_counterexample :
    process_pdf (LibAttempt.ok csvTextPages) (LibAttempt.raises "x") =
      PdfResult.ok (pdfplumberResult csvTextPages) ∧
    (pdfplumberResult csvTextPages).headers = ["content", "source"] ∧
    (pdfplumberResult csvTextPages).record_count = 1 ∧
    (pdfplumberResult csvTextPages).tables_found = 0 ∧
    (pdfplumberResult csvTextPages).data =
      [[("content", "\n--- Pagina 1 ---\nA,B,C\n1,2,3\n4,5,6"),
        ("source", "pdf_text")]] ∧
    (["content", "source"] : List String) ≠ ["A", "B", "C"] :=
  ⟨rfl, by decide, by decide, by decide, by decide, by decide⟩

/-- Claim C1 (amended): when the structured extractor succeeds but
produces no records, no heuristic table reconstructor runs — the result
is a non-error envelope with `tables_found = 0` and a single record
pairing `content` with the accumulated text and `source` with
`"pdf_text"`, whatever shape the text has. -/
theorem c1_zero_tables (pages : List Page) (pp : LibAttempt (List String))
    (h : extractedData pages = []) :
    process_pdf (LibAttempt.ok pages) pp =
      PdfResult.ok
        { data := [[("content", allText pages), ("source", "pdf_text")]],
          headers := ["content", "source"], record_count := 1,
          tables_found := 0, full_text := (allText pages).take 5000 } := by
  simp [process_pdf, pdfplumberResult, h]

/-- Witness for C1 at the CSV-like three-line page. -/
theorem c1_witness :
    extractedData csvTextPages = [] ∧
    process_pdf (LibAttempt.ok csvTextPages) (LibAttempt.raises "x") =
      PdfResult.ok
        { data :=
            [[("content", allText csvTextPages), ("source", "pdf_text")]],
          headers := ["content", "source"], record_count := 1,
          tables_found := 0,
          full_text := (allText csvTextPages).take 5000 } :=
  ⟨by decide, c1_zero_tables csvTextPages (LibAttempt.raises "x") (by decide)⟩

/-- Claim C2 counterexample.  A sheet with header row `A`,`B` and one
data row having a single cell `1` yields the record `[("A", "1")]`: the
missing cell under `B` is not padded with the empty string, the key `B`
is simply absent, so the record is not keyed by the full header set. -/
theorem c2_counterexample :
    process_excel (LibAttempt.raises "e")
        [[[PyValue.str "A", PyValue.str "B"], [PyValue.str "1"]]] =
      ExcelResult.ok ⟨[[("A", PyValue.str "1")]], ["A", "B"], 1, 1⟩ ∧
    ([("A", PyValue.str "1")] : ExcelRec).map Prod.fst ≠ ["A", "B"] :=
  ⟨by decide, by decide⟩

/-- Claim C2 (amended): on the openpyxl path, a single sheet with header
row `hr` (headers pairwise distinct) and data rows that all contain a
non-`None` cell yields exactly one record per data row; each record is
keyed by the first `min (|row|) (|headers|)` headers — cells beyond the
header count are dropped, and a row shorter than the header count yields
a record missing the trailing keys rather than padded with empty
strings. -/
theorem c2_records (hr : List PyValue) (rows : List (List PyValue))
    (msg : String) (hnd : (sheetHeaders hr).Nodup)
    (hnb : ∀ row ∈ rows, row.any isNotNone = true) :
    process_excel (LibAttempt.raises msg) [hr :: rows] =
      ExcelResult.ok
        { data := rows.map (excelRow (sheetHeaders hr)),
          headers := sheetHeaders hr, record_count := rows.length,
          sheets_processed := 1 } ∧
    ∀ row ∈ rows, (excelRow (sheetHeaders hr) row).map Prod.fst =
      (sheetHeaders hr).take (min row.length (sheetHeaders hr).length) := by
  have hfilter : rows.filter (fun row => row.any isNotNone) = rows :=
    List.filter_eq_self.mpr hnb
  constructor
  · rw [process_excel_one_sheet]
    simp [sheetRecords, hfilter]
  · intro row _
    exact excelRow_keys (sheetHeaders hr) hnd row

/-- Witness for C2: header row `A`,`B`, one short data row `1`. -/
theorem c2_witness :
    (sheetHeaders [PyValue.str "A", PyValue.str "B"]).Nodup ∧
    process_excel (LibAttempt.raises "boom")
        [[PyValue.str "A", PyValue.str "B"] :: [[PyValue.str "1"]]] =
      ExcelResult.ok
        { data := [[PyValue.str "1"]].map
            (excelRow (sheetHeaders [PyValue.str "A", PyValue.str "B"])),
          headers := sheetHeaders [PyValue.str "A", PyValue.str "B"],
          record_count := 1, sheets_processed := 1 } :=
  ⟨by decide,
    (c2_records [PyValue.str "A", PyValue.str "B"] [[PyValue.str "1"]]
      "boom" (by decide) (by decide)).1⟩

/-- Claim C3 counterexample.  An openpyxl sheet row consisting of the
single cell `""` (non-`None`, so the row passes the blank-row guard)
produces the record `[("A", "")]`, all of whose values are empty after
normalization. -/
theorem c3_counterexample :
    process_excel (LibAttempt.raises "e")
        [[[PyValue.str "A"], [PyValue.str ""]]] =
      ExcelResult.ok ⟨[[("A", PyValue.str "")]], ["A"], 1, 1⟩ :=
  by decide

/-- Claim C3 (amended): on both extraction paths a record is emitted
only from a source row with at least one non-blank cell (PDF: a truthy
cell; Excel: a non-`None` cell) — but the emitted record itself may
still have all-empty values, as the counterexample shows. -/
theorem c3_nonblank_rows :
    (∀ (pages : List Page) (rec : PdfRec), rec ∈ extractedData pages →
       ∃ hs row, row.any truthy = true ∧ rec = buildRow hs row) ∧
    (∀ (msg : String) (sheets : List (List (List PyValue)))
       (r : ExcelSuccess),
       process_excel (LibAttempt.raises msg) sheets = ExcelResult.ok r →
       ∀ rec ∈ r.data,
         ∃ hs row, row.any isNotNone = true ∧ rec = excelRow hs row) := by
  constructor
  · intro pages rec h
    exact extractedData_mem h
  · intro msg sheets r heq
    exact process_excel_openpyxl_mem heq
      (fun hs row hrow => ⟨hs, row, hrow, rfl⟩)

/-- Witness for C3 at a concrete table whose only record comes from a
row that is truthy solely beyond the header count. -/
theorem c3_witness :
    ([("A", "")] : PdfRec) ∈ extractedData raggedRowPages ∧
    (∃ hs row, row.any truthy = true ∧
      ([("A", "")] : PdfRec) = buildRow hs row) :=
  ⟨by decide, c3_nonblank_rows.1 raggedRowPages [("A", "")] (by decide)⟩

/-- Claim C4 counterexample.  A header row whose first cell is `None`
and whose second cell is the empty string yields headers
`["Col_0", ""]` on the openpyxl path: the synthesized name uses the
0-based index (`Col_0`, not `Col_1`), and an empty-string header cell
passes through as an empty header. -/
theorem c4_counterexample :
    sheetHeaders [PyValue.none, PyValue.str ""] = ["Col_0", ""] ∧
    ("Col_0" : String) ≠ "Col_1" :=
  ⟨by decide, by decide⟩

/-- Claim C4 (amended): on the PDF path every header is nonempty and a
falsy header cell at 0-based position `i` becomes `Col_i`; on the
openpyxl path only a `None` header cell is replaced (by the 0-based
`Col_i`), while an empty-string header cell yields the empty header. -/
theorem c4_headers :
    (∀ (row0 : List Cell), ∀ h ∈ pdfHeadersList row0, h ≠ "") ∧
    (∀ (row0 : List Cell) (i : Nat) (hi : i < row0.length),
       truthy row0[i] = false →
       (pdfHeadersList row0).getD i "" = "Col_" ++ toString i) ∧
    (∀ (fr : List PyValue) (i : Nat) (hi : i < fr.length),
       isNotNone fr[i] = false →
       (sheetHeaders fr).getD i "" = "Col_" ++ toString i) ∧
    sheetHeaders [PyValue.str ""] = [""] := by
  refine ⟨?_, ?_, ?_, by decide⟩
  · intro row0 h hmem
    exact pdfHeadersAux_ne_empty row0 0 h hmem
  · intro row0 i hi htr
    rw [pdfHeadersList, pdfHeadersAux_getD row0 0 i hi,
      if_neg (by simp [htr]), Nat.zero_add]
  · intro fr i hi hn
    rw [sheetHeaders, sheetHeadersAux_getD fr 0 i hi,
      if_neg (by simp [hn]), Nat.zero_add]

/-- Witness for C4: a falsy first header cell becomes `Col_0`. -/
theorem c4_witness :
    truthy Option.none = false ∧
    (pdfHeadersList [Option.none, some "B"]).getD 0 "" = "Col_0" :=
  ⟨rfl, c4_headers.2.1 [Option.none, some "B"] 0 (by decide) (by decide)⟩

/-- Claim C5 counterexample.  The `/process-file` ingestion path hands a
document one byte over the 50 MB ceiling straight to the PDF parser: no
size check exists on this path. -/
theorem c5_counterexample :
    process_file_direct (some "http://files/doc.pdf") (some "pdf")
        (MAX_FILE_SIZE + 1) =
      DirectOutcome.parsePdf (MAX_FILE_SIZE + 1) := by decide

/-- Claim C5 (amended): only the Telegram ingestion path enforces the
ceiling — `download_telegram_file` rejects a file whose reported size
exceeds `MAX_FILE_SIZE` before downloading, while `/process-file`
invokes the parser on content of any size. -/
theorem c5_size_check (n : Nat) (content : List Nat)
    (h : n > MAX_FILE_SIZE) :
    download_telegram_file n content =
      Except.error ("File troppo grande: " ++ toString n ++
        " bytes (max " ++ toString MAX_FILE_SIZE ++ ")") ∧
    process_file_direct (some "http://files/doc.pdf") (some "pdf") n =
      DirectOutcome.parsePdf n := by
  constructor
  · simp [download_telegram_file, h]
  · rfl

/-- Witness for C5 one byte above the ceiling. -/
theorem c5_witness :
    MAX_FILE_SIZE + 1 > MAX_FILE_SIZE ∧
    download_telegram_file (MAX_FILE_SIZE + 1) [] =
      Except.error ("File troppo grande: " ++ toString (MAX_FILE_SIZE + 1) ++
        " bytes (max " ++ toString MAX_FILE_SIZE ++ ")") :=
  ⟨by omega, (c5_size_check (MAX_FILE_SIZE + 1) [] (by omega)).1⟩

/-- Claim C6 counterexample.  When pdfplumber raises and PyPDF2 also
raises, `process_pdf` returns the `success: False` error dict — an
error outcome, with no fixed failure-marker text. -/
theorem c6_counterexample :
    process_pdf (LibAttempt.raises "a") (LibAttempt.raises "b") =
      PdfResult.err "Errore processing PDF: b" := by decide

/-- Claim C6 (amended): a pdfplumber exception falls through to PyPDF2,
whose success yields a non-error envelope with zero tables and one
content/source record; but a PyPDF2 exception reaches the outer handler
and produces the error dict, not a marker-string envelope. -/
theorem c6_fallback :
    (∀ (m : String) (pageTexts : List String),
       process_pdf (LibAttempt.raises m) (LibAttempt.ok pageTexts) =
         PdfResult.ok (pypdf2Result pageTexts) ∧
       (pypdf2Result pageTexts).tables_found = 0 ∧
       (pypdf2Result pageTexts).record_count = 1) ∧
    (∀ (m m2 : String),
       process_pdf (LibAttempt.raises m) (LibAttempt.raises m2) =
         PdfResult.err ("Errore processing PDF: " ++ m2)) :=
  ⟨fun _ _ => ⟨rfl, rfl, rfl⟩, fun _ _ => rfl⟩

/-- Claim C7 counterexample.  The page marker written by the code is the
Italian `--- Pagina N ---`; the accumulated text of a one-page document
does not contain the claimed marker `--- Page 1 ---` at all. -/
theorem c7_counterexample :
    allText onePage = "\n--- Pagina 1 ---\nx" ∧
    ¬ List.IsInfix ("--- Page 1 ---".toList) ((allText onePage).toList) :=
  ⟨by decide, by decide⟩

/-- Claim C7 (amended): the accumulated text is exactly the
concatenation, in ascending page order, of one block per page with
truthy text, each block being the marker `--- Pagina N ---` (newline
delimited, `N` the 1-based page number) followed by that page's text. -/
theorem c7_markers (pages : List Page) :
    allText pages = concatList (markedTexts 1 pages) := by
  have h := allTextAux_concat pages 0 ""
  simpa using h

/-- Claim C8 counterexample.  On the pandas fast path the returned
record values are passed through unchanged: an integer cell stays an
integer value, not a string. -/
theorem c8_counterexample :
    process_excel (LibAttempt.ok (["A"], [[("A", PyValue.int 5)]])) [] =
      ExcelResult.ok ⟨[[("A", PyValue.int 5)]], ["A"], 1, 1⟩ ∧
    isStr (PyValue.int 5) = false :=
  ⟨by decide, by decide⟩

/-- Claim C8 (amended): only on the openpyxl fallback path is every
record value a string (produced by Python `str()`, so datetimes are
rendered with a space separator rather than the `T` of
`datetime.isoformat()`); the pandas path keeps native value types. -/
theorem c8_string_values (msg : String)
    (sheets : List (List (List PyValue))) (r : ExcelSuccess)
    (heq : process_excel (LibAttempt.raises msg) sheets = ExcelResult.ok r) :
    ∀ rec ∈ r.data, ∀ kv ∈ rec, ∃ s, kv.2 = PyValue.str s :=
  process_excel_openpyxl_mem heq (fun hs row _ => excelRow_values hs row)

/-- Witness for C8 on a one-sheet workbook with a datetime cell (note
the space-separated `str()` rendering of the value). -/
theorem c8_witness :
    process_excel (LibAttempt.raises "e")
        [[[PyValue.str "A"], [PyValue.datetime 2020 6 1 12 30 0]]] =
      ExcelResult.ok
        ⟨[[("A", PyValue.str "2020-06-01 12:30:00")]], ["A"], 1, 1⟩ ∧
    ∀ rec ∈ ([[("A", PyValue.str "2020-06-01 12:30:00")]] : List ExcelRec),
      ∀ kv ∈ rec, ∃ s, kv.2 = PyValue.str s :=
  ⟨by decide,
    c8_string_values "e" [[[PyValue.str "A"], [PyValue.datetime 2020 6 1 12 30 0]]]
      ⟨[[("A", PyValue.str "2020-06-01 12:30:00")]], ["A"], 1, 1⟩ (by decide)⟩

/-- Claim C9: extraction is deterministic — two runs of the webhook
processing on the same parse outcomes, filename, size and metadata, at
different times, produce the same processing result and metadata that
agree on every field except `processed_at`. -/
theorem c9_determinism (ext : String)
    (pandas : LibAttempt (List String × List ExcelRec))
    (sheets : List (List (List PyValue))) (plumber : LibAttempt (List Page))
    (pypdf2 : LibAttempt (List String)) (filename mime : String)
    (fsize : Nat) (uid : Option Int) (uname : Option String)
    (chat : Option Int) (t1 t2 : String) :
    (webhookProcess ext pandas sheets plumber pypdf2 filename mime fsize
        uid uname chat t1).proc =
      (webhookProcess ext pandas sheets plumber pypdf2 filename mime fsize
        uid uname chat t2).proc ∧
    eraseTimestamp (webhookProcess ext pandas sheets plumber pypdf2
        filename mime fsize uid uname chat t1).meta =
      eraseTimestamp (webhookProcess ext pandas sheets plumber pypdf2
        filename mime fsize uid uname chat t2).meta :=
  ⟨rfl, rfl⟩

/-- Claim C10: in the PDF structured path the envelope headers are the
key list of the first extracted record (`list(extracted_data[0].keys())`),
not the first table's full header row.  At the concrete two-table page,
the first table's header row is `["A", "B"]` but its first data row has
one cell, so the envelope headers are `["A"]`; the second table's record
keeps its own key `X`, so not every record is keyed by the envelope
headers. -/
theorem c10_headers :
    (∀ (pages : List Page) (first : PdfRec) (rest : List PdfRec),
       extractedData pages = first :: rest →
       (pdfplumberResult pages).headers = first.map Prod.fst) ∧
    ((pdfplumberResult twoTablePages).headers = ["A"] ∧
     pdfHeadersList [some "A", some "B"] = ["A", "B"] ∧
     (pdfplumberResult twoTablePages).data = [[("A", "1")], [("X", "x")]] ∧
     (["A"] : List String) ≠ ["A", "B"] ∧
     ([("X", "x")] : PdfRec).map Prod.fst ≠ ["A"]) := by
  constructor
  · intro pages first rest h
    simp [pdfplumberResult, h]
  · exact ⟨by decide, by decide, by decide, by decide, by decide⟩

/-- Witness for C10 at the two-table page. -/
theorem c10_witness :
    extractedData twoTablePages = [("A", "1")] :: [[("X", "x")]] ∧
    (pdfplumberResult twoTablePages).headers =
      ([("A", "1")] : PdfRec).map Prod.fst :=
  ⟨by decide,
    c10_headers.1 twoTablePages [("A", "1")] [[("X", "x")]] (by decide)⟩
